import Mathlib

/-!
Verification development for the prompt-scavenger CLI (src/main.go).

Modelling conventions:
* Go strings and byte slices are both arbitrary byte sequences, so both are
  embedded as `List Nat` (entries below 256 where it matters); converting
  between them, as `[]byte(payload)` and `string(fetchedBlob.Data)` do in the
  source, is the identity.
* The hex codec follows Go's `encoding/hex` (`DecodeString`/`fromHexChar`)
  byte for byte.
* The celestia-openrpc and go-openai libraries are not part of src/; their
  pure parts (`share.NewBlobNamespaceV0`, `blob.NewBlobV0`) are modelled from
  the spec and their documented contracts, and their network parts (submit,
  get, chat completion) are modelled as an explicit network state plus fault
  oracles, following the behaviour the spec ascribes to them.
* `log.Fatal`/`log.Fatalf` terminate the process with a non-zero status; this
  is the `Outcome.fatal` constructor.  An out-of-range slice index panics in
  Go; this is the distinct `GptResult.indexPanic` / `Outcome.panicked`.
-/

/-- Go strings and `[]byte` values, as byte sequences. -/
abbrev GoStr := List Nat

/-- Errors of Go's `encoding/hex` decoder: `InvalidByteError` carries the
offending byte, `ErrLength` reports an odd-length input. -/
inductive HexError where
  | invalidByte (b : Nat)
  | errLength
  deriving DecidableEq, Repr

/-- Go `encoding/hex.fromHexChar`: the value of one hex digit byte.
Byte codes: 48–57 are the digits, 97–102 are lowercase a–f,
65–70 are uppercase A–F. -/
def fromHexChar (c : Nat) : Option Nat :=
  if 48 ≤ c ∧ c ≤ 57 then some (c - 48)
  else if 97 ≤ c ∧ c ≤ 102 then some (c - 97 + 10)
  else if 65 ≤ c ∧ c ≤ 70 then some (c - 65 + 10)
  else none

/-- Go `encoding/hex.DecodeString`: consumes the bytes in pairs, reporting the
first invalid byte, and reports `ErrLength` for a trailing unpaired byte whose
own digit check succeeded. -/
def hexDecode : GoStr → Except HexError (List Nat)
  | [] => .ok []
  | [c] =>
    match fromHexChar c with
    | none => .error (.invalidByte c)
    | some _ => .error .errLength
  | a :: b :: rest =>
    match fromHexChar a with
    | none => .error (.invalidByte a)
    | some x =>
      match fromHexChar b with
      | none => .error (.invalidByte b)
      | some y =>
        match hexDecode rest with
        | .error e => .error e
        | .ok ds => .ok ((x * 16 + y) :: ds)

/-- Bytes available for a user-specified id in a version-0 namespace. -/
def NamespaceVersionZeroIDSize : Nat := 10

/-- Number of zero bytes prefixed to version-0 namespace ids. -/
def NamespaceVersionZeroPrefixSize : Nat := 18

/-- Total width of a namespace: one version byte plus the 28-byte id. -/
def NamespaceSize : Nat := 29

/-- Errors of `createNamespaceID`: a wrapped hex `DecodeError`, or the
library's `NamespaceFormatError` carrying the rejected byte length. -/
inductive NsError where
  | decodeError (e : HexError)
  | formatError (len : Nat)
  deriving DecidableEq, Repr

/-- Modelled from the spec: `share.NewBlobNamespaceV0` of the celestia-openrpc
library is not part of src/.  Per the spec ("construct a versioned namespace
value from the decoded bytes, failing with a `NamespaceFormatError` if the byte
length is incompatible with the network's fixed namespace width") and the
library's documented contract (the id must be at most 10 bytes and is left
padded with zeros to the fixed width), it rejects ids longer than
`NamespaceVersionZeroIDSize` and otherwise builds the 29-byte namespace:
version byte 0, then zero padding, then the id. -/
def NewBlobNamespaceV0 (id : List Nat) : Except NsError (List Nat) :=
  if NamespaceVersionZeroIDSize < id.length then
    .error (.formatError id.length)
  else
    .ok (0 :: (List.replicate (NamespaceSize - 1 - id.length) 0 ++ id))

/-- src/main.go `createNamespaceID`: hex-decode the argument, wrapping a
failure as a decode error, then build the version-0 namespace. -/
def createNamespaceID (nIDString : GoStr) : Except NsError (List Nat) :=
  match hexDecode nIDString with
  | .error e => .error (.decodeError e)
  | .ok namespaceBytes => NewBlobNamespaceV0 namespaceBytes

/-- A blob: namespace, payload bytes, and content commitment. -/
structure Blob where
  Namespace : List Nat
  Data : List Nat
  Commitment : List Nat
  deriving DecidableEq, Repr

/-- Modelled from the spec: the commitment is "a content-derived identifier",
a deterministic function of the blob content; the concrete commitment scheme
lives in the absent library, so any deterministic content function represents
it. -/
def commitmentOf (ns data : List Nat) : List Nat := ns ++ data

/-- Modelled from the spec: `blob.NewBlobV0` "constructs a blob value from the
namespace and raw payload bytes"; the commitment is derived from the
content. -/
def NewBlobV0 (ns data : List Nat) : Blob :=
  { Namespace := ns, Data := data, Commitment := commitmentOf ns data }

/-- Modelled from the spec: the data-availability network's state, a height
counter and the blobs stored so far, each under its inclusion height. -/
structure NetState where
  store : List (Nat × Blob)
  nextHeight : Nat
  deriving DecidableEq, Repr

/-- Modelled from the spec: submission stores the blob at a fresh height,
"returning the block height at which it was included". -/
def netSubmit (st : NetState) (b : Blob) : Nat × NetState :=
  (st.nextHeight, { store := (st.nextHeight, b) :: st.store, nextHeight := st.nextHeight + 1 })

/-- Modelled from the spec: fetching "returns the blob stored at that height
under that namespace matching that commitment", or nothing if absent. -/
def netGet (st : NetState) (h : Nat) (ns com : List Nat) : Option Blob :=
  (st.store.find? fun p => p.1 == h && p.2.Namespace == ns && p.2.Commitment == com).map
    Prod.snd

/-- One chat message of the completion request, as in go-openai. -/
structure ChatMessage where
  role : String
  content : GoStr
  deriving DecidableEq, Repr

/-- A chat completion request: model name and message list. -/
structure ChatRequest where
  model : String
  messages : List ChatMessage
  deriving DecidableEq, Repr

/-- One generated choice of the completion response. -/
structure ChatChoice where
  message : ChatMessage
  deriving DecidableEq, Repr

/-- A chat completion response: the list of generated choices. -/
structure ChatResponse where
  choices : List ChatChoice
  deriving DecidableEq, Repr

/-- go-openai constant `GPT3Dot5Turbo`. -/
def GPT3Dot5Turbo : String := "gpt-3.5-turbo"

/-- go-openai constant `ChatMessageRoleUser`. -/
def ChatMessageRoleUser : String := "user"

/-- Network calls the program can issue: dialling the node, submitting blobs,
fetching a blob, and the chat-completion request. -/
inductive Event where
  | clientNew (nodeIP : GoStr)
  | submitCall (blobs : List Blob)
  | getCall (height : Nat) (ns com : List Nat)
  | chatCall (req : ChatRequest)
  deriving DecidableEq, Repr

/-- Errors of the `gpt3` step: the missing-credential error for an unset
`OPENAI_KEY`, or a wrapped fault of the completion service. -/
inductive GptError where
  | missingCredential
  | completionError (e : String)
  deriving DecidableEq, Repr

/-- Result of the `gpt3` step; `indexPanic` models the Go runtime panic of the
unchecked `resp.Choices[0]` index on an empty choice list. -/
inductive GptResult where
  | ok (answer : GoStr)
  | err (e : GptError)
  | indexPanic
  deriving DecidableEq, Repr

/-- Oracles for the external world: whether dialling the node fails, the
initial network state, transport faults for submit and get, and the remote
completion service's reply to a request. -/
structure World where
  connectFault : Option String
  net0 : NetState
  submitFault : Option String
  getFault : Option String
  chat : ChatRequest → Except String ChatResponse

/-- src/main.go `createAndSubmitBlob`: build the blob from namespace and
payload, submit it, and return the blob with its inclusion height (here also
the updated network state and the issued network events). -/
def createAndSubmitBlob (w : World) (st : NetState) (ns : List Nat) (payload : GoStr) :
    List Event × Except String (Blob × Nat × NetState) :=
  let createdBlob := NewBlobV0 ns payload
  match w.submitFault with
  | some e => ([.submitCall [createdBlob]], .error e)
  | none =>
    let hs := netSubmit st createdBlob
    ([.submitCall [createdBlob]], .ok (createdBlob, hs.1, hs.2))

/-- src/main.go `gpt3`: read `OPENAI_KEY` (Go's `os.Getenv` yields the empty
string, here `[]`, when unset) and fail before any request if it is empty;
otherwise send one chat request with the single user message `msg` and return
the first choice's content.  The unchecked `resp.Choices[0]` index becomes
`indexPanic` on an empty choice list. -/
def gpt3 (chat : ChatRequest → Except String ChatResponse) (env : String → GoStr)
    (msg : GoStr) : List Event × GptResult :=
  let openAIKey := env "OPENAI_KEY"
  if openAIKey = [] then
    ([], .err .missingCredential)
  else
    let req : ChatRequest :=
      { model := GPT3Dot5Turbo
        messages := [{ role := ChatMessageRoleUser, content := msg }] }
    match chat req with
    | .error e => ([.chatCall req], .err (.completionError e))
    | .ok resp =>
      match resp.choices with
      | [] => ([.chatCall req], .indexPanic)
      | c :: _ => ([.chatCall req], .ok c.message.content)

/-- How a run of `main` ends: usage error, client-construction failure,
namespace-decoding failure, submit or fetch failure, a `gpt3` failure, the
runtime panic, or full success with the answer. -/
inductive FailKind where
  | usage
  | connectFail (e : String)
  | decodeFail (e : NsError)
  | submitErr (e : String)
  | fetchFail
  | gptFail (e : GptError)
  deriving DecidableEq, Repr

/-- Final outcome of a run: `done` is exit code 0, `fatal` is the
`log.Fatal` family (non-zero exit), `panicked` is a runtime panic. -/
inductive Outcome where
  | done (answer : GoStr)
  | fatal (f : FailKind)
  | panicked
  deriving DecidableEq, Repr

/-- src/main.go `main`: check the argument count (`os.Args` includes the
program name, so three positional arguments mean length 4), dial the node,
decode the namespace, create and submit the blob, fetch it back by height,
namespace and commitment, and hand the fetched payload to `gpt3`.  Returns the
network events issued and the outcome. -/
def mainRun (w : World) (argv : List GoStr) (env : String → GoStr) :
    List Event × Outcome :=
  if argv.length ≠ 4 then ([], .fatal .usage)
  else
    let nodeIP := argv.getD 1 []
    let namespaceHex := argv.getD 2 []
    let prompt := argv.getD 3 []
    match w.connectFault with
    | some e => ([.clientNew nodeIP], .fatal (.connectFail e))
    | none =>
      match createNamespaceID namespaceHex with
      | .error e => ([.clientNew nodeIP], .fatal (.decodeFail e))
      | .ok namespaceID =>
        match createAndSubmitBlob w w.net0 namespaceID prompt with
        | (evs, .error e) => (.clientNew nodeIP :: evs, .fatal (.submitErr e))
        | (evs, .ok (createdBlob, height, st)) =>
          let evs1 := .clientNew nodeIP :: evs ++
            [.getCall height namespaceID createdBlob.Commitment]
          match w.getFault with
          | some _ => (evs1, .fatal .fetchFail)
          | none =>
            match netGet st height namespaceID createdBlob.Commitment with
            | none => (evs1, .fatal .fetchFail)
            | some fetchedBlob =>
              match gpt3 w.chat env fetchedBlob.Data with
              | (gevs, .ok answer) => (evs1 ++ gevs, .done answer)
              | (gevs, .err e) => (evs1 ++ gevs, .fatal (.gptFail e))
              | (gevs, .indexPanic) => (evs1 ++ gevs, .panicked)


/-- Zero-pad a decoded byte string on the left to the version-0 id width. -/
def padToIDSize (bs : List Nat) : List Nat :=
  List.replicate (NamespaceVersionZeroIDSize - bs.length) 0 ++ bs

theorem NewBlobNamespaceV0_ok (id : List Nat)
    (hlen : id.length ≤ NamespaceVersionZeroIDSize) :
    NewBlobNamespaceV0 id =
      .ok (0 :: (List.replicate (NamespaceSize - 1 - id.length) 0 ++ id)) := by
  unfold NewBlobNamespaceV0
  rw [if_neg (by omega)]

theorem NewBlobNamespaceV0_ok_inv (id n : List Nat)
    (h : NewBlobNamespaceV0 id = .ok n) :
    id.length ≤ NamespaceVersionZeroIDSize ∧
      n = 0 :: (List.replicate (NamespaceSize - 1 - id.length) 0 ++ id) := by
  unfold NewBlobNamespaceV0 at h
  by_cases hl : NamespaceVersionZeroIDSize < id.length
  · rw [if_pos hl] at h
    exact absurd h (by simp)
  · rw [if_neg hl] at h
    refine ⟨by omega, ?_⟩
    injection h with h
    exact h.symm

theorem NewBlobNamespaceV0_ok_padded (bs n : List Nat)
    (h : NewBlobNamespaceV0 bs = .ok n) :
    n = 0 :: (List.replicate NamespaceVersionZeroPrefixSize 0 ++ padToIDSize bs) := by
  obtain ⟨hlen, hn⟩ := NewBlobNamespaceV0_ok_inv bs n h
  subst hn
  rw [padToIDSize, ← List.append_assoc, ← List.replicate_add]
  have : NamespaceSize - 1 - bs.length =
      NamespaceVersionZeroPrefixSize + (NamespaceVersionZeroIDSize - bs.length) := by
    simp only [NamespaceSize, NamespaceVersionZeroPrefixSize,
      NamespaceVersionZeroIDSize] at *
    omega
  rw [this]

theorem createNamespaceID_ok_inv (s : GoStr) (n : List Nat)
    (h : createNamespaceID s = .ok n) :
    ∃ bs, hexDecode s = .ok bs ∧ NewBlobNamespaceV0 bs = .ok n := by
  unfold createNamespaceID at h
  cases hd : hexDecode s with
  | error e => rw [hd] at h; exact absurd h (by simp)
  | ok bs => rw [hd] at h; exact ⟨bs, rfl, h⟩

/-- Claim C1: for every payload P and namespace N, submitting a blob with
payload P under namespace N via Submit and then fetching by the returned
height, the same namespace N, and the returned commitment yields a blob whose
payload equals P byte for byte. -/
theorem submit_get_roundtrip (w : World) (st : NetState) (ns payload : List Nat)
    (b : Blob) (h : Nat) (st' : NetState)
    (hok : (createAndSubmitBlob w st ns payload).2 = .ok (b, h, st')) :
    ∃ fb, netGet st' h ns b.Commitment = some fb ∧ fb.Data = payload := by
  unfold createAndSubmitBlob at hok
  cases hf : w.submitFault with
  | some e => rw [hf] at hok; simp at hok
  | none =>
    rw [hf] at hok
    simp only [netSubmit, Except.ok.injEq, Prod.mk.injEq] at hok
    obtain ⟨hb, hh, hst⟩ := hok
    subst hb hh hst
    refine ⟨NewBlobV0 ns payload, ?_, rfl⟩
    simp [netGet, List.find?, NewBlobV0]

theorem submit_get_roundtrip_witness :
    (createAndSubmitBlob ⟨none, ⟨[], 1⟩, none, none, fun _ => .error ""⟩
        ⟨[], 1⟩ [1] [2]).2 =
      .ok (NewBlobV0 [1] [2], 1, ⟨[(1, NewBlobV0 [1] [2])], 2⟩) ∧
    ∃ fb, netGet ⟨[(1, NewBlobV0 [1] [2])], 2⟩ 1 [1] (NewBlobV0 [1] [2]).Commitment =
        some fb ∧ fb.Data = [2] :=
  ⟨rfl, submit_get_roundtrip ⟨none, ⟨[], 1⟩, none, none, fun _ => .error ""⟩
    ⟨[], 1⟩ [1] [2] (NewBlobV0 [1] [2]) 1 ⟨[(1, NewBlobV0 [1] [2])], 2⟩ rfl⟩

/-- Claim C2 fails on the code: hex decoding is case-insensitive and short ids
are zero left-padded, so the distinct inputs "0a" (bytes 48, 97) and "0A"
(bytes 48, 65) decode legally to the same namespace, as do "01" and "0001". -/
theorem createNamespaceID_not_injective :
    ([48, 97] : GoStr) ≠ [48, 65] ∧
    createNamespaceID [48, 97] = .ok (0 :: (List.replicate 27 0 ++ [10])) ∧
    createNamespaceID [48, 65] = .ok (0 :: (List.replicate 27 0 ++ [10])) ∧
    ([48, 49] : GoStr) ≠ [48, 48, 48, 49] ∧
    createNamespaceID [48, 49] = .ok (0 :: (List.replicate 27 0 ++ [1])) ∧
    createNamespaceID [48, 48, 48, 49] = .ok (0 :: (List.replicate 27 0 ++ [1])) :=
  ⟨by decide, rfl, rfl, by decide, rfl, rfl⟩

/-- Claim C2 amended: decoding is not injective on legally decodable inputs;
instead, two hex strings that both decode successfully yield the same
namespace exactly when their decoded byte strings agree after zero
left-padding to the version-0 id width (so inputs differing only in hex-digit
case or in leading zero bytes collide). -/
theorem createNamespaceID_eq_iff_padded (s1 s2 : GoStr) (n1 n2 bs1 bs2 : List Nat)
    (h1 : createNamespaceID s1 = .ok n1) (h2 : createNamespaceID s2 = .ok n2)
    (hd1 : hexDecode s1 = .ok bs1) (hd2 : hexDecode s2 = .ok bs2) :
    n1 = n2 ↔ padToIDSize bs1 = padToIDSize bs2 := by
  obtain ⟨bs1', hd1', hv1⟩ := createNamespaceID_ok_inv s1 n1 h1
  obtain ⟨bs2', hd2', hv2⟩ := createNamespaceID_ok_inv s2 n2 h2
  rw [hd1] at hd1'
  rw [hd2] at hd2'
  injection hd1' with hb1
  injection hd2' with hb2
  subst hb1 hb2
  rw [NewBlobNamespaceV0_ok_padded bs1 n1 hv1, NewBlobNamespaceV0_ok_padded bs2 n2 hv2]
  simp

theorem createNamespaceID_eq_iff_padded_witness :
    ((0 :: (List.replicate 27 0 ++ [10]) : List Nat) =
        0 :: (List.replicate 27 0 ++ [10])) ↔
      padToIDSize [10] = padToIDSize [10] :=
  createNamespaceID_eq_iff_padded [48, 97] [48, 65]
    (0 :: (List.replicate 27 0 ++ [10])) (0 :: (List.replicate 27 0 ++ [10]))
    [10] [10] rfl rfl rfl rfl

theorem hexDecode_error_of_bad :
    ∀ s : GoStr, s.length % 2 = 1 ∨ (∃ b ∈ s, fromHexChar b = none) →
    ∃ e, hexDecode s = .error e ∧
      (e = .errLength ∨ ∃ b ∈ s, fromHexChar b = none ∧ e = .invalidByte b)
  | [], h => by
    rcases h with h | ⟨b, hb, _⟩
    · simp at h
    · simp at hb
  | [c], _ => by
    cases hc : fromHexChar c with
    | none =>
      exact ⟨.invalidByte c, by simp [hexDecode, hc], .inr ⟨c, by simp, hc, rfl⟩⟩
    | some x =>
      exact ⟨.errLength, by simp [hexDecode, hc], .inl rfl⟩
  | a :: b :: rest, h => by
    cases ha : fromHexChar a with
    | none =>
      exact ⟨.invalidByte a, by simp [hexDecode, ha], .inr ⟨a, by simp, ha, rfl⟩⟩
    | some x =>
      cases hb : fromHexChar b with
      | none =>
        exact ⟨.invalidByte b, by simp [hexDecode, ha, hb], .inr ⟨b, by simp, hb, rfl⟩⟩
      | some y =>
        have hrest : rest.length % 2 = 1 ∨ ∃ c ∈ rest, fromHexChar c = none := by
          rcases h with h | ⟨c, hc, hcn⟩
          · left
            simp only [List.length_cons] at h ⊢
            omega
          · right
            rcases List.mem_cons.mp hc with rfl | hc
            · exact absurd hcn (by simp [ha])
            rcases List.mem_cons.mp hc with rfl | hc
            · exact absurd hcn (by simp [hb])
            · exact ⟨c, hc, hcn⟩
        obtain ⟨e, he, hid⟩ := hexDecode_error_of_bad rest hrest
        refine ⟨e, by simp [hexDecode, ha, hb, he], ?_⟩
        rcases hid with rfl | ⟨c, hc, hcn, rfl⟩
        · exact .inl rfl
        · exact .inr ⟨c, by simp [hc], hcn, rfl⟩

/-- Claim C4: for every odd-length or non-hex-character input, namespace
decoding fails with a wrapped hex decode error identifying the offending
input (the invalid byte, or the odd-length report), and no namespace value is
produced. -/
theorem createNamespaceID_decode_error (s : GoStr)
    (h : s.length % 2 = 1 ∨ ∃ b ∈ s, fromHexChar b = none) :
    ∃ e, createNamespaceID s = .error (.decodeError e) ∧
      (e = .errLength ∨ ∃ b ∈ s, fromHexChar b = none ∧ e = .invalidByte b) := by
  obtain ⟨e, he, hid⟩ := hexDecode_error_of_bad s h
  refine ⟨e, ?_, hid⟩
  unfold createNamespaceID
  rw [he]

theorem createNamespaceID_decode_error_witness :
    (([97] : GoStr).length % 2 = 1) ∧
    ∃ e, createNamespaceID [97] = .error (.decodeError e) ∧
      (e = .errLength ∨ ∃ b ∈ ([97] : GoStr), fromHexChar b = none ∧ e = .invalidByte b) :=
  ⟨by decide, createNamespaceID_decode_error [97] (Or.inl (by decide))⟩

/-- Claim C5: for every hex string that decodes to raw bytes whose length is
outside the allowed namespace width, namespace decoding fails with the
`NamespaceFormatError`. -/
theorem createNamespaceID_format_error (s : GoStr) (bs : List Nat)
    (hd : hexDecode s = .ok bs) (hlen : NamespaceVersionZeroIDSize < bs.length) :
    createNamespaceID s = .error (.formatError bs.length) := by
  unfold createNamespaceID
  rw [hd]
  show NewBlobNamespaceV0 bs = .error (.formatError bs.length)
  unfold NewBlobNamespaceV0
  rw [if_pos hlen]

theorem createNamespaceID_format_error_witness :
    hexDecode (List.replicate 22 48) = .ok (List.replicate 11 0) ∧
    NamespaceVersionZeroIDSize < (List.replicate 11 0 : List Nat).length ∧
    createNamespaceID (List.replicate 22 48) =
      .error (.formatError (List.replicate 11 0 : List Nat).length) :=
  ⟨rfl, by decide,
    createNamespaceID_format_error (List.replicate 22 48) (List.replicate 11 0)
      rfl (by decide)⟩

/-- Claim C10: every namespace produced by successful decoding is a version-0
namespace of the fixed 29-byte width, with the decoded bytes zero left-padded;
acceptance depends only on the decoded length being at most the version-0 id
width. -/
theorem createNamespaceID_v0_padded (s : GoStr) (bs : List Nat)
    (hd : hexDecode s = .ok bs) :
    ((∃ n, createNamespaceID s = .ok n) ↔ bs.length ≤ NamespaceVersionZeroIDSize) ∧
    ∀ n, createNamespaceID s = .ok n →
      n = 0 :: (List.replicate NamespaceVersionZeroPrefixSize 0 ++ padToIDSize bs) ∧
      n.length = NamespaceSize := by
  have hcs : createNamespaceID s = NewBlobNamespaceV0 bs := by
    unfold createNamespaceID
    rw [hd]
  constructor
  · constructor
    · rintro ⟨n, hn⟩
      rw [hcs] at hn
      exact (NewBlobNamespaceV0_ok_inv bs n hn).1
    · intro hlen
      exact ⟨_, by rw [hcs]; exact NewBlobNamespaceV0_ok bs hlen⟩
  · intro n hn
    rw [hcs] at hn
    have hlen := (NewBlobNamespaceV0_ok_inv bs n hn).1
    refine ⟨NewBlobNamespaceV0_ok_padded bs n hn, ?_⟩
    rw [NewBlobNamespaceV0_ok_padded bs n hn]
    simp only [List.length_cons, List.length_append, List.length_replicate, padToIDSize,
      NamespaceVersionZeroPrefixSize, NamespaceVersionZeroIDSize, NamespaceSize] at *
    omega

theorem createNamespaceID_v0_padded_witness :
    createNamespaceID [102, 102] = .ok (0 :: (List.replicate 27 0 ++ [255])) ∧
    (0 :: (List.replicate 27 0 ++ [255]) : List Nat) =
      0 :: (List.replicate NamespaceVersionZeroPrefixSize 0 ++ padToIDSize [255]) ∧
    (0 :: (List.replicate 27 0 ++ [255]) : List Nat).length = NamespaceSize :=
  ⟨rfl,
    ((createNamespaceID_v0_padded [102, 102] [255] rfl).2
      (0 :: (List.replicate 27 0 ++ [255])) rfl).1,
    ((createNamespaceID_v0_padded [102, 102] [255] rfl).2
      (0 :: (List.replicate 27 0 ++ [255])) rfl).2⟩

theorem gpt3_no_key (chat : ChatRequest → Except String ChatResponse)
    (env : String → GoStr) (msg : GoStr) (hk : env "OPENAI_KEY" = []) :
    gpt3 chat env msg = ([], .err .missingCredential) := by
  simp [gpt3, hk]

/-- Claim C6: for every prompt, if OPENAI_KEY is unset (Go's Getenv then
yields the empty string), `gpt3` returns the missing-credential error
immediately, issuing no network request. -/
theorem gpt3_missing_credential (chat : ChatRequest → Except String ChatResponse)
    (env : String → GoStr) (msg : GoStr) (hk : env "OPENAI_KEY" = []) :
    gpt3 chat env msg = ([], .err .missingCredential) :=
  gpt3_no_key chat env msg hk

theorem gpt3_missing_credential_witness :
    gpt3 (fun _ => .error "") (fun _ => []) [104] = ([], .err .missingCredential) :=
  gpt3_missing_credential (fun _ => .error "") (fun _ => []) [104] rfl

/-- Claim C7: with the credential set, `gpt3` issues exactly one chat request,
whose message list is the single user-role message carrying the given payload,
and on a success response returns the first generated choice's text. -/
theorem gpt3_single_user_message (chat : ChatRequest → Except String ChatResponse)
    (env : String → GoStr) (msg : GoStr) (hk : env "OPENAI_KEY" ≠ []) :
    (gpt3 chat env msg).1 =
      [.chatCall ⟨GPT3Dot5Turbo, [⟨ChatMessageRoleUser, msg⟩]⟩] ∧
    ∀ resp c rest,
      chat ⟨GPT3Dot5Turbo, [⟨ChatMessageRoleUser, msg⟩]⟩ = .ok resp →
      resp.choices = c :: rest →
      (gpt3 chat env msg).2 = .ok c.message.content := by
  constructor
  · simp only [gpt3, if_neg hk]
    cases hc : chat ⟨GPT3Dot5Turbo, [⟨ChatMessageRoleUser, msg⟩]⟩ with
    | error e => rfl
    | ok resp =>
      obtain ⟨choices⟩ := resp
      cases choices with
      | nil => rfl
      | cons c rest => rfl
  · intro resp c rest hc hch
    obtain ⟨choices⟩ := resp
    change choices = c :: rest at hch
    subst hch
    simp only [gpt3, if_neg hk, hc]

theorem gpt3_single_user_message_witness :
    (gpt3 (fun _ => .ok ⟨[⟨⟨"assistant", [42]⟩⟩]⟩) (fun _ => [107]) [104]).1 =
      [.chatCall ⟨GPT3Dot5Turbo, [⟨ChatMessageRoleUser, [104]⟩]⟩] ∧
    (gpt3 (fun _ => .ok ⟨[⟨⟨"assistant", [42]⟩⟩]⟩) (fun _ => [107]) [104]).2 =
      .ok [42] :=
  ⟨(gpt3_single_user_message (fun _ => .ok ⟨[⟨⟨"assistant", [42]⟩⟩]⟩)
      (fun _ => [107]) [104] (by simp)).1,
    (gpt3_single_user_message (fun _ => .ok ⟨[⟨⟨"assistant", [42]⟩⟩]⟩)
      (fun _ => [107]) [104] (by simp)).2
      ⟨[⟨⟨"assistant", [42]⟩⟩]⟩ ⟨⟨"assistant", [42]⟩⟩ [] rfl rfl⟩

/-- Claim C9: with the credential set, a success response whose choice list is
empty drives `gpt3` into the unchecked `resp.Choices[0]` access, modelled as
the runtime panic, and not into any returned error such as a completion
error. -/
theorem gpt3_empty_choices_panic (chat : ChatRequest → Except String ChatResponse)
    (env : String → GoStr) (msg : GoStr) (hk : env "OPENAI_KEY" ≠ [])
    (hc : chat ⟨GPT3Dot5Turbo, [⟨ChatMessageRoleUser, msg⟩]⟩ = .ok ⟨[]⟩) :
    (gpt3 chat env msg).2 = .indexPanic ∧
    ∀ e, (gpt3 chat env msg).2 ≠ .err e := by
  have hp : (gpt3 chat env msg).2 = .indexPanic := by
    simp only [gpt3, if_neg hk, hc]
  exact ⟨hp, fun e h => by rw [hp] at h; exact absurd h (by simp)⟩

theorem gpt3_empty_choices_panic_witness :
    (gpt3 (fun _ => .ok ⟨[]⟩) (fun _ => [107]) [104]).2 = .indexPanic :=
  (gpt3_empty_choices_panic (fun _ => .ok ⟨[]⟩) (fun _ => [107]) [104]
    (by simp) rfl).1

/-- Claim C8: for every invocation whose positional-argument count is not
exactly three (so `os.Args` does not have length four), the run prints the
usage message and terminates fatally with no network event issued. -/
theorem mainRun_usage_on_bad_argc (w : World) (argv : List GoStr)
    (env : String → GoStr) (h : argv.length ≠ 4) :
    mainRun w argv env = ([], .fatal .usage) := by
  unfold mainRun
  rw [if_pos h]

theorem mainRun_usage_on_bad_argc_witness :
    mainRun ⟨none, ⟨[], 1⟩, none, none, fun _ => .error ""⟩ [[], []] (fun _ => []) =
      ([], .fatal .usage) :=
  mainRun_usage_on_bad_argc ⟨none, ⟨[], 1⟩, none, none, fun _ => .error ""⟩
    [[], []] (fun _ => []) (by decide)

/-- Claim C3 fails on the code: with OPENAI_KEY unset the credential is only
checked inside `gpt3`, so the run below (all network operations available)
still dials the node, submits the blob and fetches it back, and only then
fails fatally at the completion step — not before every network call. -/
theorem missing_key_still_calls_network :
    ((fun _ => ([] : GoStr)) "OPENAI_KEY" = []) ∧
    (mainRun ⟨none, ⟨[], 1⟩, none, none, fun _ => .error ""⟩
        [[], [], [48, 97], [104, 105]] (fun _ => [])).1 ≠ [] ∧
    Event.clientNew [] ∈ (mainRun ⟨none, ⟨[], 1⟩, none, none, fun _ => .error ""⟩
        [[], [], [48, 97], [104, 105]] (fun _ => [])).1 ∧
    Event.submitCall [NewBlobV0 (0 :: (List.replicate 27 0 ++ [10])) [104, 105]] ∈
      (mainRun ⟨none, ⟨[], 1⟩, none, none, fun _ => .error ""⟩
        [[], [], [48, 97], [104, 105]] (fun _ => [])).1 ∧
    (mainRun ⟨none, ⟨[], 1⟩, none, none, fun _ => .error ""⟩
        [[], [], [48, 97], [104, 105]] (fun _ => [])).2 =
      .fatal (.gptFail .missingCredential) := by
  refine ⟨rfl, ?_, ?_, ?_, ?_⟩ <;> decide

/-- Claim C3 amended: if OPENAI_KEY is absent the program does fail fatally
and never issues a call to the completion service, but the credential check
happens only at the completion step, so client construction, blob submission
and blob fetch are still attempted first whenever they are reached. -/
theorem missing_key_no_chat_and_fatal (w : World) (argv : List GoStr)
    (env : String → GoStr) (hk : env "OPENAI_KEY" = []) :
    ∃ evs f, mainRun w argv env = (evs, .fatal f) ∧
      ∀ rq, Event.chatCall rq ∉ evs := by
  by_cases ha : argv.length ≠ 4
  · refine ⟨[], .usage, ?_, by simp⟩
    unfold mainRun
    rw [if_pos ha]
  · cases hcf : w.connectFault with
    | some e =>
      refine ⟨[.clientNew (argv.getD 1 [])], .connectFail e, ?_, by simp⟩
      simp only [mainRun, if_neg ha, hcf]
    | none =>
      cases hns : createNamespaceID (argv.getD 2 []) with
      | error e =>
        refine ⟨[.clientNew (argv.getD 1 [])], .decodeFail e, ?_, by simp⟩
        simp only [mainRun, if_neg ha, hcf, hns]
      | ok nsid =>
        cases hsf : w.submitFault with
        | some e =>
          refine ⟨[.clientNew (argv.getD 1 []),
              .submitCall [NewBlobV0 nsid (argv.getD 3 [])]], .submitErr e, ?_, by simp⟩
          simp only [mainRun, if_neg ha, hcf, hns, createAndSubmitBlob, hsf]
        | none =>
          cases hgf : w.getFault with
          | some e2 =>
            refine ⟨[.clientNew (argv.getD 1 []),
                .submitCall [NewBlobV0 nsid (argv.getD 3 [])],
                .getCall w.net0.nextHeight nsid
                  (NewBlobV0 nsid (argv.getD 3 [])).Commitment],
              .fetchFail, ?_, by simp⟩
            simp only [mainRun, if_neg ha, hcf, hns, createAndSubmitBlob, hsf,
              netSubmit, hgf]
            rfl
          | none =>
            cases hng : netGet (netSubmit w.net0 (NewBlobV0 nsid (argv.getD 3 []))).2
                w.net0.nextHeight nsid (NewBlobV0 nsid (argv.getD 3 [])).Commitment with
            | none =>
              refine ⟨[.clientNew (argv.getD 1 []),
                  .submitCall [NewBlobV0 nsid (argv.getD 3 [])],
                  .getCall w.net0.nextHeight nsid
                    (NewBlobV0 nsid (argv.getD 3 [])).Commitment],
                .fetchFail, ?_, by simp⟩
              simp only [mainRun, if_neg ha, hcf, hns, createAndSubmitBlob, hsf,
                netSubmit, hgf] at hng ⊢
              rw [hng]
              rfl
            | some fb =>
              refine ⟨[.clientNew (argv.getD 1 []),
                  .submitCall [NewBlobV0 nsid (argv.getD 3 [])],
                  .getCall w.net0.nextHeight nsid
                    (NewBlobV0 nsid (argv.getD 3 [])).Commitment] ++ [],
                .gptFail .missingCredential, ?_, by simp⟩
              simp only [mainRun, if_neg ha, hcf, hns, createAndSubmitBlob, hsf,
                netSubmit, hgf] at hng ⊢
              simp only [hng, gpt3_no_key w.chat env fb.Data hk]
              rfl

theorem missing_key_no_chat_and_fatal_witness :
    ((fun _ => ([] : GoStr)) "OPENAI_KEY" = []) ∧
    ∃ evs f,
      mainRun ⟨none, ⟨[], 1⟩, none, none, fun _ => .error ""⟩
          [[], [], [48, 97], [104, 105]] (fun _ => []) = (evs, .fatal f) ∧
      ∀ rq, Event.chatCall rq ∉ evs :=
  ⟨rfl, missing_key_no_chat_and_fatal ⟨none, ⟨[], 1⟩, none, none, fun _ => .error ""⟩
    [[], [], [48, 97], [104, 105]] (fun _ => []) rfl⟩
